import Mathlib

/-!
Verification of the split-entry/exit execution engine of the
kimchi-premium repository, as a shallow embedding of
`src/strategies/split_entry_strategy.py` (class `SplitEntryStrategy`).

Modelling conventions:
* Python `Decimal` arithmetic is embedded as `ℚ` (both are exact).
* Every fallible adapter call (`get_orderbook`, `place_order`,
  `get_funding_rate`, `get_usdt_rate`) returns `Option _`, following the
  adapter contract (null on any recoverable failure).
* A Python exception that is raised inside a `try` block and swallowed by
  the enclosing `except` handler is recorded in the outcome structure as
  `caught := some e`; the handler then returns `False`, so `success := false`.
* The decisive exception: every branch of `_round_size` (lines 679, 689,
  691, 693) calls `Decimal.quantize(..., rounding='down')`, and `'down'` is
  not a valid rounding mode (the valid constants are the `ROUND_*` strings),
  so the call raises TypeError; the `except` fallback at line 697 repeats
  the same invalid call, so the exception propagates out of every
  `_round_size` invocation. `round_size` is therefore `Except`-valued and
  always errors, and `_execute_entry` aborts at its first `_round_size` call
  (line 424) before dispatching any order. The code after line 424 — the
  sizing of lines 427-451, the dispatch, and the reads of the never-assigned
  local name `upbit_size` at lines 503 and 526 — is translated faithfully
  below but is dead code in the shipped program.
-/

namespace KimchiPremium

/-- Order side, from `src/models/models.py` (`OrderSide`). -/
inductive OrderSide where
  | buy
  | sell
deriving DecidableEq, Repr

/-- Order type, from `src/models/models.py` (`OrderType`). Both execution
paths use market orders only. -/
inductive OrderType where
  | market
  | limit
deriving DecidableEq, Repr

/-- Order request, from `src/models/models.py` (`OrderRequest`); only the
fields the strategy populates are kept. `total_krw` is the market-buy
notional used for the upbit spot leg. -/
structure OrderRequest where
  exchange : String
  symbol : String
  side : OrderSide
  size : ℚ
  order_type : OrderType
  total_krw : Option ℚ := none
deriving DecidableEq, Repr

/-- Order response (`src/models/models.py`). The engine only ever tests the
response for null-ness, so the payload is reduced to the order id. -/
structure OrderResponse where
  order_id : String
deriving DecidableEq, Repr

/-- Python exceptions that the embedded code paths can raise (and that the
enclosing `except Exception` handlers swallow). -/
inductive PyErr where
  | typeError
  | nameError (n : String)
  | indexError
  | zeroDivisionError
deriving DecidableEq, Repr

/-- One price level of an order book: `[price, size]`. -/
structure BookLevel where
  price : ℚ
  size : ℚ
deriving DecidableEq, Repr

/-- Order book as returned by `connector.get_orderbook`. -/
structure Orderbook where
  bids : List BookLevel
  asks : List BookLevel
deriving DecidableEq, Repr

/-- Cached per-symbol, per-exchange trading rules
(`_update_symbol_info_cache`, lines 653-658): size precision (decimal
places) and minimum size. -/
structure SymbolExchangeInfo where
  size_precision : ℕ
  min_size : ℚ
deriving DecidableEq, Repr

/-! ## Strategy constants (lines 21-46 of `split_entry_strategy.py`) -/

/-- Taker fee per exchange (`EXCHANGE_FEES`, lines 21-26), as the
`dict.get` lookup used by the code. -/
def EXCHANGE_FEES (exchange : String) : Option ℚ :=
  if exchange = "upbit" then some (5/10000)
  else if exchange = "bithumb" then some (25/10000)
  else if exchange = "okx" then some (5/10000)
  else if exchange = "gate" then some (5/10000)
  else none

/-- Minimum order value per exchange (`MIN_ORDER_VALUE`, lines 29-34). -/
def MIN_ORDER_VALUE (exchange : String) : Option ℚ :=
  if exchange = "upbit" then some 5000
  else if exchange = "bithumb" then some 1000
  else if exchange = "okx" then some 1
  else if exchange = "gate" then some 1
  else none

/-- Per-slice notional in KRW (`self.entry_amount_krw = 10000`, line 42). -/
def entry_amount_krw : ℤ := 10000

/-- Runtime strategy settings held on the instance (lines 43-46):
per-coin cap, entry and exit premium thresholds. -/
structure StrategyConfig where
  max_amount_per_coin : ℤ
  entry_threshold : ℚ
  exit_threshold : ℚ
deriving DecidableEq, Repr

/-- The values assigned in `__init__` (lines 43-46). -/
def defaultConfig : StrategyConfig :=
  { max_amount_per_coin := 30000
    entry_threshold := -1
    exit_threshold := 1/10 }

/-- Maximum concurrent positions from `config.py` (`RISK_CONFIG`,
`"max_positions": 10`). The strategy module itself never reads this
value. -/
def RISK_max_positions : ℕ := 10

/-! ## Size rounding (`_round_size`, lines 664-697)

Every call site in `_round_size` passes the string `'down'` as the
`rounding` argument of `Decimal.quantize`. The valid rounding constants of
the Python decimal module are the `ROUND_*` strings
(`decimal.ROUND_DOWN == 'ROUND_DOWN'`), so `quantize(..., rounding='down')`
raises `TypeError: valid values for rounding are: [ROUND_CEILING, ...]` on
every invocation. The function therefore never returns a value. -/

/-- Truncation of a rational toward zero. This is the semantics of the
valid rounding constant `ROUND_DOWN`, which the repository never manages to
select (all of its calls pass the invalid string `'down'`). -/
def truncQ (x : ℚ) : ℤ :=
  if 0 ≤ x then ⌊x⌋ else ⌈x⌉

/-- Truncation of `x` toward zero on the `10^(-p)` grid: the behavior
`Decimal.quantize` would have under the valid mode `ROUND_DOWN`. Kept only
to give `decimalQuantize` a total value on the valid modes; no call in this
code base ever reaches it. -/
def quantizeDown (x : ℚ) (p : ℕ) : ℚ :=
  ((truncQ (x * 10 ^ p) : ℚ)) / 10 ^ p

/-- The valid rounding-mode constants of the Python decimal module (the
list the TypeError message enumerates). -/
def validRoundingModes : List String :=
  ["ROUND_CEILING", "ROUND_FLOOR", "ROUND_UP", "ROUND_DOWN",
   "ROUND_HALF_UP", "ROUND_HALF_DOWN", "ROUND_HALF_EVEN", "ROUND_05UP"]

/-- `Decimal.quantize(10^(-p), rounding=mode)`: a mode string outside the
valid constants raises TypeError. For a valid mode the value is the
ROUND_DOWN truncation — the only valid mode whose semantics could matter
here, and in fact none matters: every `quantize` call in this repository
passes the invalid string `"down"`, so only the error branch is ever
exercised, and no theorem below depends on the value branch. -/
def decimalQuantize (x : ℚ) (p : ℕ) (mode : String) : Except PyErr ℚ :=
  if mode ∈ validRoundingModes then Except.ok (quantizeDown x p)
  else Except.error PyErr.typeError

/-- The `try` block of `_round_size` (lines 666-693): cache hit quantizes
at the cached precision and applies the minimum-size floor (lines
673-685); cache miss uses the per-symbol default quantum (lines 687-693).
Every branch passes the invalid rounding mode `'down'`. -/
def round_size_body (info : Option SymbolExchangeInfo) (symbol : String) (size : ℚ) :
    Except PyErr ℚ :=
  match info with
  | some i =>
      match decimalQuantize size i.size_precision "down" with
      | Except.error e => Except.error e
      | Except.ok rounded =>
          if rounded < i.min_size then Except.ok 0 else Except.ok rounded
  | none =>
      if symbol = "BTC" then decimalQuantize size 5 "down"
      else if symbol = "ETH" then decimalQuantize size 4 "down"
      else decimalQuantize size 2 "down"

/-- `SplitEntryStrategy._round_size` (lines 664-697). The `except` handler
at line 695 catches the TypeError of the `try` block, but its fallback at
line 697 is `size.quantize(Decimal('0.01'), rounding='down')` — the same
invalid call — so the second TypeError propagates to the caller: the
function never returns a value. -/
def round_size (info : Option SymbolExchangeInfo) (symbol : String) (size : ℚ) :
    Except PyErr ℚ :=
  match round_size_body info symbol size with
  | Except.ok v => Except.ok v
  | Except.error _ => decimalQuantize size 2 "down"

theorem decimalQuantize_down (x : ℚ) (p : ℕ) :
    decimalQuantize x p "down" = Except.error PyErr.typeError := by
  unfold decimalQuantize
  rw [if_neg (by decide : ¬ ("down" ∈ validRoundingModes))]

theorem round_size_body_raises (info : Option SymbolExchangeInfo) (symbol : String)
    (size : ℚ) : round_size_body info symbol size = Except.error PyErr.typeError := by
  cases info with
  | some i =>
      unfold round_size_body
      dsimp only
      rw [decimalQuantize_down]
  | none =>
      unfold round_size_body
      dsimp only
      repeat' split
      all_goals rw [decimalQuantize_down]

theorem round_size_raises (info : Option SymbolExchangeInfo) (symbol : String)
    (size : ℚ) : round_size info symbol size = Except.error PyErr.typeError := by
  unfold round_size
  rw [round_size_body_raises]
  exact decimalQuantize_down size 2

/-- Claim C2 (code bug): `_round_size` never returns a value at all, let
alone an idempotent truncated one: every branch (lines 679, 689, 691, 693)
passes the invalid rounding mode `'down'` to `Decimal.quantize`, raising
TypeError, and the `except` fallback at line 697 repeats the same invalid
call, so the exception escapes every invocation. -/
theorem round_size_never_returns (info : Option SymbolExchangeInfo) (symbol : String)
    (size : ℚ) : round_size info symbol size = Except.error PyErr.typeError :=
  round_size_raises info symbol size

/-- Witness for claim C2 at a concrete cache entry and size. -/
theorem round_size_never_returns_witness :
    round_size (some ⟨3, 1/10000⟩) "BTC" (123456/100000) = Except.error PyErr.typeError :=
  round_size_never_returns (some ⟨3, 1/10000⟩) "BTC" (123456/100000)

/-! ## Premium engine (`_get_best_premium`, lines 204-281) -/

/-- Inputs a single foreign venue contributes to the premium scan: the
order book returned by `connector.get_orderbook` and the funding rate
returned by `connector.get_funding_rate` (both `none` on failure). -/
structure VenueData where
  orderbook : Option Orderbook
  funding : Option ℚ
deriving DecidableEq, Repr

/-- All external data one `_get_best_premium` call observes. A venue entry
of `none` means the exchange is absent from `connector.exchanges`
(line 228, `continue`). -/
structure PremiumInputs where
  upbit_ob : Option Orderbook
  usdt_rate : Option ℚ
  okx : Option VenueData
  gate : Option VenueData
deriving DecidableEq, Repr

/-- The dictionary `_get_best_premium` returns (lines 265-277). -/
structure PremiumData where
  symbol : String
  premium : ℚ
  korean_ask : ℚ
  korean_bid : ℚ
  korean_ask_usd : ℚ
  global_exchange : String
  global_bid : ℚ
  global_ask : ℚ
  funding_rate : ℚ
  usdt_rate : ℚ
deriving DecidableEq, Repr

/-- One iteration of the venue loop (lines 231-256): read top-of-book bid
and ask, then the funding rate with `None` mapped to `0` (lines 242-246).
Any missing piece makes the venue contribute nothing (a `continue`, or an
`IndexError` swallowed by the inner `except` at line 255). -/
def venueQuote (v : Option VenueData) : Option (ℚ × ℚ × ℚ) :=
  match v with
  | none => none
  | some vd =>
      match vd.orderbook with
      | none => none
      | some ob =>
          match ob.bids.head?, ob.asks.head? with
          | some bl, some al => some (bl.price, al.price, vd.funding.getD 0)
          | _, _ => none

/-- The running best-venue update (lines 249-253):
`if best_global is None or bid > best_price`. -/
def considerVenue (acc : Option (String × ℚ × ℚ × ℚ)) (name : String)
    (v : Option VenueData) : Option (String × ℚ × ℚ × ℚ) :=
  match venueQuote v with
  | none => acc
  | some (bid, ask, fund) =>
      match acc with
      | none => some (name, bid, ask, fund)
      | some best => if best.2.1 < bid then some (name, bid, ask, fund) else acc

/-- The venue loop `for exchange in ['okx', 'gate']` (line 227). -/
def selectBestGlobal (inp : PremiumInputs) : Option (String × ℚ × ℚ × ℚ) :=
  considerVenue (considerVenue none "okx" inp.okx) "gate" inp.gate

/-- USDT-rate fallback of lines 217-219: `if not usdt_rate: usdt_rate =
Decimal('1365')`. Python truthiness makes a rate of `0` fall back too. -/
def effectiveRate (r : Option ℚ) : ℚ :=
  match r with
  | none => 1365
  | some v => if v = 0 then 1365 else v

/-- `SplitEntryStrategy._get_best_premium` (lines 204-281). A best bid of
`0` would raise `DivisionByZero` at line 263, swallowed by the outer
`except` into `None`. -/
def get_best_premium (symbol : String) (inp : PremiumInputs) : Option PremiumData :=
  match inp.upbit_ob with
  | none => none
  | some uob =>
      match uob.asks.head?, uob.bids.head? with
      | some ua, some ub =>
          match selectBestGlobal inp with
          | none => none
          | some (ex, bid, ask, fund) =>
              if bid = 0 then none
              else
                some { symbol := symbol
                       premium := ((ua.price / effectiveRate inp.usdt_rate - bid) / bid) * 100
                       korean_ask := ua.price
                       korean_bid := ub.price
                       korean_ask_usd := ua.price / effectiveRate inp.usdt_rate
                       global_exchange := ex
                       global_bid := bid
                       global_ask := ask
                       funding_rate := fund
                       usdt_rate := effectiveRate inp.usdt_rate }
      | _, _ => none

/-! ## Position state (lines 49-56) -/

/-- Position status strings (line 55). -/
inductive Status where
  | idle
  | entering
  | holding
  | exiting
deriving DecidableEq, Repr

/-- One slice record appended on a successful entry (lines 520-528). The
timestamp is abstracted to a tick. `amount` is the integer
`self.entry_amount_krw`. -/
structure SliceRecord where
  timestamp : ℕ
  amount : ℤ
  premium : ℚ
  spot_price : ℚ
  futures_price : ℚ
  spot_size : ℚ
  futures_size : ℚ
deriving DecidableEq, Repr

/-- Per-symbol position state, the `defaultdict` value of lines 49-56. -/
structure Position where
  count : ℤ
  total_krw : ℤ
  global_exchange : Option String
  entries : List SliceRecord
  avg_entry_premium : ℚ
  status : Status
deriving DecidableEq, Repr

/-- The default position created on first access (lines 49-56). -/
def initPos : Position :=
  { count := 0
    total_krw := 0
    global_exchange := none
    entries := []
    avg_entry_premium := 0
    status := Status.idle }

/-- Entry trigger condition of `_check_and_execute_symbol` (lines 146-149):
premium at or below the entry threshold, per-coin cap not reached, status
idle, and non-negative funding. -/
def entryGuard (cfg : StrategyConfig) (d : PremiumData) (p : Position) : Bool :=
  decide (d.premium ≤ cfg.entry_threshold) &&
  decide (p.total_krw < cfg.max_amount_per_coin) &&
  decide (p.status = Status.idle) &&
  decide (0 ≤ d.funding_rate)

theorem get_best_premium_some (s : String) (inp : PremiumInputs) (pd : PremiumData)
    (h : get_best_premium s inp = some pd) :
    selectBestGlobal inp =
        some (pd.global_exchange, pd.global_bid, pd.global_ask, pd.funding_rate) ∧
    pd.global_bid ≠ 0 ∧
    pd.premium = ((pd.korean_ask / pd.usdt_rate) - pd.global_bid) / pd.global_bid * 100 := by
  unfold get_best_premium at h
  split at h
  · simp at h
  · split at h
    · split at h
      · simp at h
      · rename_i ex bid ask fund hsel
        split at h
        · simp at h
        · rename_i hbid
          cases h
          exact ⟨hsel, hbid, rfl⟩
    · simp at h

theorem considerVenue_le (acc : Option (String × ℚ × ℚ × ℚ)) (name : String)
    (v : Option VenueData) (b a f : ℚ) (r : String × ℚ × ℚ × ℚ)
    (hq : venueQuote v = some (b, a, f)) (h : considerVenue acc name v = some r) :
    b ≤ r.2.1 := by
  unfold considerVenue at h
  rw [hq] at h
  cases acc with
  | none =>
      dsimp only at h
      cases h
      exact le_rfl
  | some best =>
      dsimp only at h
      by_cases hlt : best.2.1 < b
      · rw [if_pos hlt] at h
        cases h
        exact le_rfl
      · rw [if_neg hlt] at h
        cases h
        exact le_of_not_lt hlt

theorem considerVenue_mono (racc : String × ℚ × ℚ × ℚ) (name : String)
    (v : Option VenueData) (r : String × ℚ × ℚ × ℚ)
    (h : considerVenue (some racc) name v = some r) :
    racc.2.1 ≤ r.2.1 := by
  unfold considerVenue at h
  cases hq : venueQuote v with
  | none =>
      rw [hq] at h
      cases h
      exact le_rfl
  | some q =>
      obtain ⟨qb, qa, qf⟩ := q
      rw [hq] at h
      dsimp only at h
      by_cases hlt : racc.2.1 < qb
      · rw [if_pos hlt] at h
        cases h
        exact le_of_lt hlt
      · rw [if_neg hlt] at h
        cases h
        exact le_rfl

/-- Concrete premium-scan scenario of claim C9: domestic ask 100300,
fx rate 1000, foreign bid 100. -/
def c9Inputs : PremiumInputs :=
  { upbit_ob := some { bids := [⟨100200, 1⟩], asks := [⟨100300, 1⟩] }
    usdt_rate := some 1000
    okx := some { orderbook := some { bids := [⟨100, 5⟩], asks := [⟨101, 5⟩] }
                  funding := some 0 }
    gate := none }

/-- The premium data `_get_best_premium` produces on `c9Inputs`. -/
def c9pd : PremiumData :=
  { symbol := "BTC"
    premium := 3/10
    korean_ask := 100300
    korean_bid := 100200
    korean_ask_usd := 100300/1000
    global_exchange := "okx"
    global_bid := 100
    global_ask := 101
    funding_rate := 0
    usdt_rate := 1000 }

theorem c9_eval : get_best_premium "BTC" c9Inputs = some c9pd := by
  norm_num [get_best_premium, c9Inputs, c9pd, selectBestGlobal, considerVenue, venueQuote,
    effectiveRate, List.head?]

theorem c9_premium_val : c9pd.premium = 3/10 := rfl

theorem c9_guard_false :
    entryGuard { defaultConfig with entry_threshold := -(1/2) } c9pd initPos = false := by
  norm_num [entryGuard, c9pd, initPos, defaultConfig]

/-- Claim C9: the computed premium always equals
`((domesticAsk / fxRate) - foreignBid) / foreignBid * 100`; concretely,
domestic ask 100300 with fx rate 1000 and foreign bid 100 gives premium
exactly `0.3`, and with entry threshold `-0.5` the entry guard does not
fire. -/
theorem premium_formula_spec :
    (∀ (s : String) (inp : PremiumInputs) (pd : PremiumData),
        get_best_premium s inp = some pd →
        pd.premium = ((pd.korean_ask / pd.usdt_rate) - pd.global_bid) / pd.global_bid * 100) ∧
    (get_best_premium "BTC" c9Inputs = some c9pd ∧
      c9pd.premium = 3/10 ∧
      entryGuard { defaultConfig with entry_threshold := -(1/2) } c9pd initPos = false) := by
  constructor
  · intro s inp pd h
    exact (get_best_premium_some s inp pd h).2.2
  · exact ⟨c9_eval, c9_premium_val, c9_guard_false⟩

/-- Witness for claim C9: the formula instantiated at the concrete scan. -/
theorem premium_formula_spec_witness :
    c9pd.premium = ((c9pd.korean_ask / c9pd.usdt_rate) - c9pd.global_bid) / c9pd.global_bid * 100 :=
  premium_formula_spec.1 "BTC" c9Inputs c9pd c9_eval

/-- Concrete scan of claim C10: okx has the highest bid (101) but negative
funding, gate has a lower bid (100) with positive funding. -/
def c10Inputs : PremiumInputs :=
  { upbit_ob := some { bids := [⟨100900, 1⟩], asks := [⟨101000, 1⟩] }
    usdt_rate := some 1000
    okx := some { orderbook := some { bids := [⟨101, 5⟩], asks := [⟨102, 5⟩] }
                  funding := some (-(1/100)) }
    gate := some { orderbook := some { bids := [⟨100, 5⟩], asks := [⟨101, 5⟩] }
                   funding := some (1/100) } }

/-- The premium data `_get_best_premium` produces on `c10Inputs`: the
selected foreign venue is okx despite its negative funding rate. -/
def c10pd : PremiumData :=
  { symbol := "ABC"
    premium := 0
    korean_ask := 101000
    korean_bid := 100900
    korean_ask_usd := 101000/1000
    global_exchange := "okx"
    global_bid := 101
    global_ask := 102
    funding_rate := -(1/100)
    usdt_rate := 1000 }

theorem c10_eval : get_best_premium "ABC" c10Inputs = some c10pd := by
  norm_num [get_best_premium, c10Inputs, c10pd, selectBestGlobal, considerVenue, venueQuote,
    effectiveRate, List.head?]

/-- Claim C10 counterexample: a venue reporting a negative funding rate is
not excluded from candidacy; with the highest bid it is the selected
foreign venue, even though another venue with non-negative funding was
available. -/
theorem negative_funding_venue_selected :
    get_best_premium "ABC" c10Inputs = some c10pd ∧
    c10pd.global_exchange = "okx" ∧
    c10pd.funding_rate < 0 ∧
    venueQuote c10Inputs.gate = some (100, 101, 1/100) := by
  refine ⟨c10_eval, rfl, by norm_num [c10pd], ?_⟩
  norm_num [venueQuote, c10Inputs, List.head?]

/-- Claim C10, amended: venue selection ignores the funding sign and picks
the highest bid among the venues that produced a quote; the negative-funding
check is applied afterwards to the selected venue by the entry guard, which
refuses to trigger when the selected funding rate is negative. -/
theorem selection_ignores_funding (s : String) (inp : PremiumInputs) (pd : PremiumData)
    (h : get_best_premium s inp = some pd) :
    (∀ b a f, venueQuote inp.okx = some (b, a, f) → b ≤ pd.global_bid) ∧
    (∀ b a f, venueQuote inp.gate = some (b, a, f) → b ≤ pd.global_bid) ∧
    (∀ cfg p, pd.funding_rate < 0 → entryGuard cfg pd p = false) := by
  obtain ⟨hsel, -, -⟩ := get_best_premium_some s inp pd h
  unfold selectBestGlobal at hsel
  refine ⟨?_, ?_, ?_⟩
  · intro b a f hq
    cases h1 : considerVenue none "okx" inp.okx with
    | none =>
        unfold considerVenue at h1
        rw [hq] at h1
        dsimp only at h1
        exact absurd h1 (by simp)
    | some r1 =>
        have hb1 : b ≤ r1.2.1 := considerVenue_le none "okx" inp.okx b a f r1 hq h1
        rw [h1] at hsel
        exact le_trans hb1 (considerVenue_mono r1 "gate" inp.gate _ hsel)
  · intro b a f hq
    exact considerVenue_le _ "gate" inp.gate b a f _ hq hsel
  · intro cfg p hf
    unfold entryGuard
    rw [decide_eq_false (not_le.mpr hf), Bool.and_false]

/-- Witness for the amended claim C10, at the concrete scan `c10Inputs`. -/
theorem selection_ignores_funding_witness :
    entryGuard defaultConfig c10pd initPos = false :=
  (selection_ignores_funding "ABC" c10Inputs c10pd c10_eval).2.2 defaultConfig initPos
    (by norm_num [c10pd])

/-! ## Paired entry execution (`_execute_entry`, lines 391-534) -/

/-- Everything one `_execute_entry` call observes from outside: fresh order
books, the refreshed USDT rate, the symbol-info cache entries for the two
venues, and the responses the three possible `place_order` calls would
return. -/
structure EntryEnv where
  upbit_ob : Option Orderbook
  global_ob : Option Orderbook
  usdt_rate : Option ℚ
  upbitInfo : Option SymbolExchangeInfo
  globalInfo : Option SymbolExchangeInfo
  spotResp : Option OrderResponse
  futResp : Option OrderResponse
  compResp : Option OrderResponse
deriving DecidableEq, Repr

/-- Observable outcome of one `_execute_entry` call: the returned boolean,
the order requests dispatched (in dispatch order), the slice record
appended to `positions[symbol]['entries']` if any, and the exception
swallowed by the `except` handler of line 532 if one was raised. -/
structure EntryOutcome where
  success : Bool
  orders : List OrderRequest
  appended : Option SliceRecord
  caught : Option PyErr
deriving DecidableEq, Repr

/-- A plain `return False` with nothing dispatched. -/
def entryFail : EntryOutcome :=
  { success := false, orders := [], appended := none, caught := none }

/-- `SplitEntryStrategy._execute_entry` (lines 391-534). The crucial
modelling point: the first `_round_size` call at line 424 raises TypeError
on every invocation (invalid rounding mode, see `round_size`), and the
handler at line 532 converts it into `return False` — before any order is
dispatched. Everything past that call (the sizing of lines 427-451, the
dispatch of lines 464-491, and the reads of the never-assigned local name
`upbit_size` at lines 503 and 526, which would raise NameError) is
translated below for completeness but is dead code. -/
def execute_entry (symbol : String) (data : PremiumData) (env : EntryEnv) : EntryOutcome :=
  -- lines 395-400: fetch both books, fail on a null response
  match env.upbit_ob, env.global_ob with
  | some uob, some gob =>
      -- lines 403-407: refresh and read the USDT rate (Python truthiness: 0 is falsy)
      match env.usdt_rate with
      | none => entryFail
      | some rate =>
          if rate = 0 then entryFail
          else
            -- lines 410-415: top of book on both legs; an empty side raises
            -- IndexError, swallowed by the handler of line 532
            match uob.asks.head?, gob.bids.head? with
            | some ua, some gb =>
                -- line 423 divides by the upbit ask; a zero ask raises
                if ua.price = 0 then { entryFail with caught := some PyErr.zeroDivisionError }
                else
                  -- lines 419-424: exact 10000 KRW spend, fee-deducted coin
                  -- quantity; the `_round_size` call raises and the handler of
                  -- line 532 returns False with nothing dispatched
                  let upbit_market_buy_krw : ℚ := (entry_amount_krw : ℚ)
                  let upbit_fee_rate : ℚ := (EXCHANGE_FEES "upbit").getD (5/10000)
                  match round_size env.upbitInfo symbol
                      ((upbit_market_buy_krw * (1 - upbit_fee_rate)) / ua.price) with
                  | Except.error e => { entryFail with caught := some e }
                  | Except.ok upbit_size_after_fee =>
                      -- dead code from here on
                      -- lines 427-432: foreign-leg sizing
                      let coin_value_usd : ℚ := upbit_size_after_fee * gb.price
                      let global_fee_rate : ℚ :=
                        (EXCHANGE_FEES data.global_exchange).getD (5/10000)
                      match round_size env.globalInfo symbol
                          (coin_value_usd / (1 - global_fee_rate)) with
                      | Except.error e => { entryFail with caught := some e }
                      | Except.ok futures_size0 =>
                          -- lines 435-437: minimum KRW order value
                          if upbit_market_buy_krw < (MIN_ORDER_VALUE "upbit").getD 0 then
                            entryFail
                          else
                            -- lines 439-442: minimum USD order value
                            if futures_size0 * gb.price <
                                (MIN_ORDER_VALUE data.global_exchange).getD 1 then entryFail
                            else
                              -- lines 445-451: shrink both legs to 95% of the bid
                              -- size if short
                              let adjust : Bool := decide (gb.size < futures_size0)
                              let futures_size : ℚ :=
                                if adjust then gb.size * (95/100) else futures_size0
                              let buy_krw : ℚ :=
                                if adjust then
                                  upbit_market_buy_krw * (gb.size * (95/100) / futures_size0)
                                else upbit_market_buy_krw
                              let spot_size : ℚ :=
                                if adjust then
                                  upbit_size_after_fee * (gb.size * (95/100) / futures_size0)
                                else upbit_size_after_fee
                              -- lines 464-491: dispatch both legs concurrently
                              let spotReq : OrderRequest :=
                                { exchange := "upbit", symbol := symbol
                                  side := OrderSide.buy, size := spot_size
                                  order_type := OrderType.market
                                  total_krw := some buy_krw }
                              let futReq : OrderRequest :=
                                { exchange := data.global_exchange, symbol := symbol
                                  side := OrderSide.sell, size := futures_size
                                  order_type := OrderType.market }
                              match env.spotResp, env.futResp with
                              | some _, some _ =>
                                  -- lines 519-530: the slice dict reads the
                                  -- never-assigned local `upbit_size`: NameError,
                                  -- nothing appended, handler returns False
                                  { success := false, orders := [spotReq, futReq]
                                    appended := none
                                    caught := some (PyErr.nameError "upbit_size") }
                              | some _, none =>
                                  -- lines 497-506: the compensating sell request
                                  -- also reads `upbit_size`: NameError before any
                                  -- compensating order is dispatched
                                  { success := false, orders := [spotReq, futReq]
                                    appended := none
                                    caught := some (PyErr.nameError "upbit_size") }
                              | none, some _ =>
                                  -- lines 507-517: buy back the futures short,
                                  -- then the shared `return False` of line 517
                                  { success := false
                                    orders := [spotReq, futReq,
                                      { exchange := data.global_exchange
                                        symbol := symbol, side := OrderSide.buy
                                        size := futures_size
                                        order_type := OrderType.market }]
                                    appended := none, caught := none }
                              | none, none =>
                                  -- both legs null: no compensation branch taken
                                  { success := false, orders := [spotReq, futReq]
                                    appended := none, caught := none }
            | _, _ => { entryFail with caught := some PyErr.indexError }
  | _, _ => entryFail

theorem execute_entry_aborts (symbol : String) (data : PremiumData) (env : EntryEnv) :
    (execute_entry symbol data env).success = false ∧
    (execute_entry symbol data env).appended = none ∧
    (execute_entry symbol data env).orders = [] := by
  unfold execute_entry
  repeat' split
  all_goals simp_all [round_size_raises, entryFail]

/-- Premium data for the concrete entry scenarios: domestic ask 99000 KRW,
foreign bid 100 USD, fx rate 1000, zero funding. -/
def cEntryData : PremiumData :=
  { symbol := "BTC"
    premium := -(11/10)
    korean_ask := 99000
    korean_bid := 98900
    korean_ask_usd := 99
    global_exchange := "okx"
    global_bid := 100
    global_ask := 101
    funding_rate := 0
    usdt_rate := 1000 }

/-- Cached trading rules used in the concrete scenarios: 8 decimal places,
minimum size `10^-8`. -/
def cInfo : SymbolExchangeInfo := { size_precision := 8, min_size := 1/100000000 }

/-- Entry environment in which both leg orders return a response. -/
def cEnvBoth : EntryEnv :=
  { upbit_ob := some { bids := [⟨98900, 1⟩], asks := [⟨99000, 1⟩] }
    global_ob := some { bids := [⟨100, 1000000⟩], asks := [⟨101, 1000000⟩] }
    usdt_rate := some 1000
    upbitInfo := some cInfo
    globalInfo := some cInfo
    spotResp := some ⟨"spot-1"⟩
    futResp := some ⟨"fut-1"⟩
    compResp := none }

/-- Entry environment in which the spot leg succeeds and the futures leg
returns null. -/
def cEnvSpotOnly : EntryEnv :=
  { cEnvBoth with futResp := none }

theorem cEnvBoth_eval :
    execute_entry "BTC" cEntryData cEnvBoth =
      { success := false
        orders := []
        appended := none
        caught := some PyErr.typeError } := by
  norm_num [execute_entry, cEntryData, cEnvBoth, round_size_raises, entryFail, List.head?]

/-- Claim C1 (code bug): the both-legs-filled success path is unreachable —
every invocation of the paired entry execution raises TypeError inside the
first `_round_size` call (line 424, invalid rounding mode), reports the
attempt as failed, appends no slice record, and dispatches no leg order at
all, so no invocation can even have both leg orders return non-null.
Concretely, in an environment in which both leg orders would return
responses, the call returns failure with nothing dispatched and the
TypeError swallowed. -/
theorem entry_success_path_unreachable :
    (∀ (symbol : String) (data : PremiumData) (env : EntryEnv),
        (execute_entry symbol data env).success = false ∧
        (execute_entry symbol data env).appended = none ∧
        (execute_entry symbol data env).orders = []) ∧
    execute_entry "BTC" cEntryData cEnvBoth =
      { success := false, orders := [], appended := none
        caught := some PyErr.typeError } :=
  ⟨fun symbol data env => execute_entry_aborts symbol data env, cEnvBoth_eval⟩

/-- Witness for claim C1 at the concrete both-legs environment. -/
theorem entry_success_path_unreachable_witness :
    (execute_entry "BTC" cEntryData cEnvBoth).success = false ∧
    (execute_entry "BTC" cEntryData cEnvBoth).appended = none ∧
    (execute_entry "BTC" cEntryData cEnvBoth).orders = [] :=
  entry_success_path_unreachable.1 "BTC" cEntryData cEnvBoth

/-- The foreign-leg sizing arithmetic of lines 427-431 as an expression:
`futures_size = coin_value_usd / (1 - global_fee_rate)` with
`coin_value_usd = upbit_size_after_fee * global_bid`. In the shipped
program this block is dead code — the TypeError of line 424 aborts every
invocation first. -/
def futuresSizing (coinQty bid fee : ℚ) : ℚ :=
  (coinQty * bid) / (1 - fee)

/-- Claim C8 (code bug): no foreign-leg order is ever submitted — every
entry invocation aborts at line 424 before the sizing block — and the
sizing expression of lines 427-431 is not the claimed foreign notional
divided by the foreign bid: at coin quantity `0.10095959`, foreign bid
`100` and fee `0.05%` it yields about `10.101`, not
`(0.10095959 × 100) / 100 = 0.10095959`. -/
theorem foreign_leg_never_sized_as_claimed :
    (∀ (symbol : String) (data : PremiumData) (env : EntryEnv),
        (execute_entry symbol data env).orders = []) ∧
    futuresSizing (10095959/100000000) 100 (5/10000) ≠
      ((10095959/100000000 : ℚ) * 100) / 100 := by
  constructor
  · intro symbol data env
    exact (execute_entry_aborts symbol data env).2.2
  · norm_num [futuresSizing]

/-- Witness for claim C8: the concrete entry invocation dispatches no
order. -/
theorem foreign_leg_never_sized_as_claimed_witness :
    (execute_entry "BTC" cEntryData cEnvBoth).orders = [] :=
  foreign_leg_never_sized_as_claimed.1 "BTC" cEntryData cEnvBoth

/-! ## Paired exit execution (`_execute_exit`, lines 536-640) -/

/-- Everything one `_execute_exit` call observes from outside. -/
structure ExitEnv where
  upbit_ob : Option Orderbook
  global_ob : Option Orderbook
  spotResp : Option OrderResponse
  futResp : Option OrderResponse
  compResp : Option OrderResponse
deriving DecidableEq, Repr

/-- Observable outcome of one `_execute_exit` call: the returned boolean,
the dispatched order requests, the entries list after the call, and any
exception swallowed by the handler of line 638. -/
structure ExitOutcome where
  success : Bool
  orders : List OrderRequest
  entries : List SliceRecord
  caught : Option PyErr
deriving DecidableEq, Repr

/-- `SplitEntryStrategy._execute_exit` (lines 536-640), acting on the
stored entries list. `globalEx` is `position['global_exchange']`. The pop
of line 544 happens before the order books are read; every explicit
failure path restores the popped slice (lines 552, 633), but an
IndexError raised while reading an empty book side jumps to the handler
of line 638, which returns False without restoring it. -/
def execute_exit (symbol : String) (globalEx : String) (entries0 : List SliceRecord)
    (env : ExitEnv) : ExitOutcome :=
  match entries0 with
  | [] =>
      -- lines 540-541
      { success := false, orders := [], entries := entries0, caught := none }
  | entry :: rest =>
      -- line 544: FIFO pop of the oldest slice
      match env.upbit_ob, env.global_ob with
      | some uob, some gob =>
          -- lines 556-561: top of book on both legs
          match uob.bids.head?, gob.asks.head? with
          | some ub, some ga =>
              -- lines 563-573: cap each leg at 95% of the available book size
              let spot_size : ℚ :=
                if ub.size < entry.spot_size then ub.size * (95/100) else entry.spot_size
              let futures_size : ℚ :=
                if ga.size < entry.futures_size then ga.size * (95/100)
                else entry.futures_size
              -- lines 579-605: dispatch both legs concurrently
              let spotReq : OrderRequest :=
                { exchange := "upbit", symbol := symbol, side := OrderSide.sell
                  size := spot_size, order_type := OrderType.market }
              let futReq : OrderRequest :=
                { exchange := globalEx, symbol := symbol, side := OrderSide.buy
                  size := futures_size, order_type := OrderType.market }
              match env.spotResp, env.futResp with
              | some _, some _ =>
                  -- line 636: the popped slice stays popped
                  { success := true, orders := [spotReq, futReq], entries := rest
                    caught := none }
              | some _, none =>
                  -- lines 611-620: buy back the sold spot; lines 633-634 restore
                  { success := false
                    orders := [spotReq, futReq,
                      { exchange := "upbit", symbol := symbol, side := OrderSide.buy
                        size := spot_size, order_type := OrderType.market }]
                    entries := entry :: rest, caught := none }
              | none, some _ =>
                  -- lines 621-630: re-sell the covered short; lines 633-634 restore
                  { success := false
                    orders := [spotReq, futReq,
                      { exchange := globalEx, symbol := symbol, side := OrderSide.sell
                        size := futures_size, order_type := OrderType.market }]
                    entries := entry :: rest, caught := none }
              | none, none =>
                  -- both legs null: no compensation branch, lines 633-634 restore
                  { success := false, orders := [spotReq, futReq]
                    entries := entry :: rest, caught := none }
          | _, _ =>
              -- IndexError: handler at line 638, popped slice lost
              { success := false, orders := [], entries := rest
                caught := some PyErr.indexError }
      | _, _ =>
          -- lines 550-553: restore the popped slice and fail
          { success := false, orders := [], entries := entry :: rest, caught := none }

/-- Slice record used in the concrete exit scenario: recorded fills of
1 coin spot and 0.01 contract futures. -/
def cExitSlice : SliceRecord :=
  { timestamp := 0
    amount := 10000
    premium := -(11/10)
    spot_price := 99000
    futures_price := 100
    spot_size := 1
    futures_size := 1/100 }

/-- Exit environment with a thin domestic top of book (bid size 0.5, less
than the recorded spot fill of 1) and both leg orders returning null. -/
def cExitEnv : ExitEnv :=
  { upbit_ob := some { bids := [⟨98000, 1/2⟩], asks := [⟨98100, 1⟩] }
    global_ob := some { bids := [⟨100, 1000⟩], asks := [⟨101, 1000⟩] }
    spotResp := none
    futResp := none
    compResp := none }

theorem cExit_eval :
    execute_exit "BTC" "okx" [cExitSlice] cExitEnv =
      { success := false
        orders :=
          [{ exchange := "upbit", symbol := "BTC", side := OrderSide.sell
             size := 19/40, order_type := OrderType.market },
           { exchange := "okx", symbol := "BTC", side := OrderSide.buy
             size := 1/100, order_type := OrderType.market }]
        entries := [cExitSlice]
        caught := none } := by
  norm_num [execute_exit, cExitSlice, cExitEnv, List.head?]

/-- Claim C7 counterexample: with the top-of-book bid size (0.5) smaller
than the recorded spot fill (1), the dispatched spot order size is
0.475 (95% of the book size), not the recorded filled size, so the unwind
does not use the recorded fills as stated. -/
theorem exit_size_differs_from_recorded :
    ((execute_exit "BTC" "okx" [cExitSlice] cExitEnv).orders.map (fun r => r.size)) =
      [19/40, 1/100] ∧
    (19/40 : ℚ) ≠ cExitSlice.spot_size := by
  constructor
  · rw [cExit_eval]
    rfl
  · norm_num [cExitSlice]

/-- Claim C7, amended: the slice selected for unwind is the oldest (front)
slice; each leg's order size is that slice's recorded filled size, reduced
to 95% of the venue's top-of-book size when the recorded size exceeds it;
and every failing attempt that did not raise — order books present with
nonempty tops, or an order-book fetch returning null — leaves the entries
sequence unchanged, the popped slice restored to the front. (An order book
that returns with an empty side raises IndexError and the popped slice is
dropped.) -/
theorem exit_fifo_amended (symbol globalEx : String) (e : SliceRecord)
    (rest : List SliceRecord) (env : ExitEnv) :
    (∀ uob gob ub ga,
        env.upbit_ob = some uob → env.global_ob = some gob →
        uob.bids.head? = some ub → gob.asks.head? = some ga →
        ((execute_exit symbol globalEx (e :: rest) env).orders.map (fun r => r.size)).take 2 =
          [if ub.size < e.spot_size then ub.size * (95/100) else e.spot_size,
           if ga.size < e.futures_size then ga.size * (95/100) else e.futures_size]) ∧
    ((execute_exit symbol globalEx (e :: rest) env).success = false →
      (execute_exit symbol globalEx (e :: rest) env).caught = none →
      (execute_exit symbol globalEx (e :: rest) env).entries = e :: rest) := by
  constructor
  · intro uob gob ub ga hu hg hub hga
    simp only [execute_exit, hu, hg, hub, hga]
    cases env.spotResp <;> cases env.futResp <;> rfl
  · intro hs hc
    cases hu : env.upbit_ob with
    | none =>
        simp only [execute_exit, hu]
    | some uob =>
        cases hg : env.global_ob with
        | none =>
            simp only [execute_exit, hu, hg]
        | some gob =>
            cases hub : uob.bids.head? with
            | none =>
                simp only [execute_exit, hu, hg, hub] at hc
                exact absurd hc (by simp)
            | some ub =>
                cases hga : gob.asks.head? with
                | none =>
                    simp only [execute_exit, hu, hg, hub, hga] at hc
                    exact absurd hc (by simp)
                | some ga =>
                    cases hsr : env.spotResp with
                    | some vs =>
                        cases hfr : env.futResp with
                        | some vf =>
                            simp only [execute_exit, hu, hg, hub, hga, hsr, hfr] at hs
                            exact Bool.noConfusion hs
                        | none =>
                            simp only [execute_exit, hu, hg, hub, hga, hsr, hfr]
                    | none =>
                        cases hfr : env.futResp with
                        | some vf =>
                            simp only [execute_exit, hu, hg, hub, hga, hsr, hfr]
                        | none =>
                            simp only [execute_exit, hu, hg, hub, hga, hsr, hfr]

/-- Witness for the amended claim C7 at the concrete thin-book scenario. -/
theorem exit_fifo_amended_witness :
    ((execute_exit "BTC" "okx" [cExitSlice] cExitEnv).orders.map (fun r => r.size)).take 2 =
      [19/40, 1/100] ∧
    (execute_exit "BTC" "okx" [cExitSlice] cExitEnv).entries = [cExitSlice] := by
  constructor
  · have h := (exit_fifo_amended "BTC" "okx" cExitSlice [] cExitEnv).1
      ⟨[⟨98000, 1/2⟩], [⟨98100, 1⟩]⟩ ⟨[⟨100, 1000⟩], [⟨101, 1000⟩]⟩
      ⟨98000, 1/2⟩ ⟨101, 1000⟩ rfl rfl rfl rfl
    rw [h]
    norm_num [cExitSlice]
  · exact (exit_fifo_amended "BTC" "okx" cExitSlice [] cExitEnv).2
      (by rw [cExit_eval]) (by rw [cExit_eval])

/-- Claim C3 (code bug): in paired entry execution a one-sided leg outcome
can never arise — every invocation aborts with the line-424 TypeError
before any leg order is dispatched, so the compensation code of lines
497-516 (whose spot-side branch additionally reads the never-assigned
local `upbit_size`) is dead. In paired exit execution, with both order
books present with nonempty tops and exactly one leg returning non-null,
exactly three orders are dispatched — the two legs followed by exactly one
compensating order on the succeeded leg's venue with the side opposite to
that leg's original side (spot leg sold, compensation buys; futures leg
bought, compensation sells) — and the attempt is reported failed whatever
the compensation response. -/
theorem compensation_entry_dead_exit_correct :
    (∀ (symbol : String) (data : PremiumData) (env : EntryEnv),
        (execute_entry symbol data env).orders = []) ∧
    (∀ (symbol gex : String) (e : SliceRecord) (rest : List SliceRecord) (env : ExitEnv)
        (uob gob : Orderbook) (ub ga : BookLevel),
        env.upbit_ob = some uob → env.global_ob = some gob →
        uob.bids.head? = some ub → gob.asks.head? = some ga →
        ((env.spotResp.isSome = true ∧ env.futResp = none →
            (execute_exit symbol gex (e :: rest) env).success = false ∧
            (execute_exit symbol gex (e :: rest) env).orders.length = 3 ∧
            (execute_exit symbol gex (e :: rest) env).orders.drop 2 =
              [{ exchange := "upbit", symbol := symbol, side := OrderSide.buy
                 size := if ub.size < e.spot_size then ub.size * (95/100) else e.spot_size
                 order_type := OrderType.market }]) ∧
         (env.spotResp = none ∧ env.futResp.isSome = true →
            (execute_exit symbol gex (e :: rest) env).success = false ∧
            (execute_exit symbol gex (e :: rest) env).orders.length = 3 ∧
            (execute_exit symbol gex (e :: rest) env).orders.drop 2 =
              [{ exchange := gex, symbol := symbol, side := OrderSide.sell
                 size := if ga.size < e.futures_size then ga.size * (95/100)
                         else e.futures_size
                 order_type := OrderType.market }]))) := by
  constructor
  · intro symbol data env
    exact (execute_entry_aborts symbol data env).2.2
  · intro symbol gex e rest env uob gob ub ga hu hg hub hga
    constructor
    · rintro ⟨hs, hf⟩
      obtain ⟨vs, hvs⟩ := Option.isSome_iff_exists.mp hs
      simp only [execute_exit, hu, hg, hub, hga, hvs, hf]
      exact ⟨trivial, rfl, rfl⟩
    · rintro ⟨hs, hf⟩
      obtain ⟨vf, hvf⟩ := Option.isSome_iff_exists.mp hf
      simp only [execute_exit, hu, hg, hub, hga, hs, hvf]
      exact ⟨trivial, rfl, rfl⟩

/-- Slice and environment for the claim C3 witness: integer sizes, spot
leg succeeds, futures leg returns null. -/
def wExitSlice : SliceRecord :=
  { timestamp := 0
    amount := 10000
    premium := -2
    spot_price := 99000
    futures_price := 100
    spot_size := 1
    futures_size := 1 }

def wExitEnv : ExitEnv :=
  { upbit_ob := some { bids := [⟨98000, 2⟩], asks := [⟨98100, 2⟩] }
    global_ob := some { bids := [⟨100, 1000⟩], asks := [⟨101, 1000⟩] }
    spotResp := some ⟨"spot-2"⟩
    futResp := none
    compResp := none }

/-- Witness for claim C3: the concrete entry invocation dispatches nothing,
and the concrete one-sided exit dispatches the two legs plus exactly one
opposite-side compensating buy on the spot venue and reports failure. -/
theorem compensation_entry_dead_exit_correct_witness :
    (execute_entry "BTC" cEntryData cEnvSpotOnly).orders = [] ∧
    (execute_exit "BTC" "okx" [wExitSlice] wExitEnv).success = false ∧
    (execute_exit "BTC" "okx" [wExitSlice] wExitEnv).orders.length = 3 ∧
    (execute_exit "BTC" "okx" [wExitSlice] wExitEnv).orders.drop 2 =
      [{ exchange := "upbit", symbol := "BTC", side := OrderSide.buy, size := 1
         order_type := OrderType.market }] := by
  refine ⟨compensation_entry_dead_exit_correct.1 "BTC" cEntryData cEnvSpotOnly, ?_⟩
  have h := (compensation_entry_dead_exit_correct.2 "BTC" "okx" wExitSlice [] wExitEnv
      ⟨[⟨98000, 2⟩], [⟨98100, 2⟩]⟩ ⟨[⟨100, 1000⟩], [⟨101, 1000⟩]⟩
      ⟨98000, 2⟩ ⟨101, 1000⟩ rfl rfl rfl rfl).1 ⟨rfl, rfl⟩
  obtain ⟨h1, h2, h3⟩ := h
  refine ⟨h1, h2, ?_⟩
  rw [h3]
  norm_num [wExitSlice]

/-! ## Position bookkeeping (`_handle_entry` / `_handle_exit` state updates) -/

/-- The slice dict of lines 520-528 with the fill sizes it would carry
(the code intends `upbit_size_after_fee` and `futures_size`). -/
def mkSliceRecord (ts : ℕ) (d : PremiumData) (spotSize futSize : ℚ) : SliceRecord :=
  { timestamp := ts
    amount := entry_amount_krw
    premium := d.premium
    spot_price := d.korean_ask
    futures_price := d.global_bid
    spot_size := spotSize
    futures_size := futSize }

/-- The `entries.append` of line 520. -/
def appendEntry (p : Position) (r : SliceRecord) : Position :=
  { p with entries := p.entries ++ [r] }

/-- The bookkeeping of a successful entry iteration (lines 306-314):
increment the slice count, add the fixed notional, recompute the
notional-weighted average entry premium over the current entries. -/
def applyEntryCounters (p : Position) : Position :=
  { p with
    count := p.count + 1
    total_krw := p.total_krw + entry_amount_krw
    avg_entry_premium :=
      (p.entries.map (fun e => e.premium * (e.amount : ℚ))).sum /
        (p.entries.map (fun e => (e.amount : ℚ))).sum }

/-- A full successful entry slice: the append performed inside
`_execute_entry` followed by the counter updates of `_handle_entry`. -/
def applyEntrySlice (p : Position) (r : SliceRecord) : Position :=
  applyEntryCounters (appendEntry p r)

/-- The bookkeeping of a successful exit iteration: the FIFO pop of line
544 kept (line 636 returns without restoring) together with the decrements
of lines 356-357. -/
def applyExitSlice (p : Position) : Position :=
  { p with
    entries := p.entries.tail
    count := p.count - 1
    total_krw := p.total_krw - entry_amount_krw }

/-- The reset once every slice is closed (lines 376-381). `count` is
already `0` and is not written. -/
def resetPos (p : Position) : Position :=
  { p with
    status := Status.idle
    total_krw := 0
    entries := []
    global_exchange := none
    avg_entry_premium := 0 }

/-- The transitions the engine performs on one symbol's position state: a
successful entry slice, a successful exit slice, a failed exit (the pop of
line 544 undone by the restore of line 552 or 633, a no-op on the state),
the reset after the last exit, and the bare status writes of lines 287,
327, 331, 341, 377, 385. -/
inductive PosStep : Position → Position → Prop where
  | entrySlice (p : Position) (ts : ℕ) (d : PremiumData) (ss fs : ℚ) :
      PosStep p (applyEntrySlice p (mkSliceRecord ts d ss fs))
  | exitSlice (p : Position) (h : p.entries ≠ []) : PosStep p (applyExitSlice p)
  | exitRestore (p : Position) : PosStep p p
  | resetDone (p : Position) (h : p.count = 0) : PosStep p (resetPos p)
  | setStatus (p : Position) (st : Status) : PosStep p { p with status := st }

/-- Position states reachable from the freshly created default position. -/
def PosReachable (p : Position) : Prop :=
  Relation.ReflTransGen PosStep initPos p

/-- Claim C5: after any sequence of successful entry and exit slice
operations (with failed attempts and resets interleaved), the slice count
equals the length of the entries list, and the committed notional equals
the count times the fixed per-slice notional. -/
theorem position_accounting_invariant (p : Position) (h : PosReachable p) :
    p.count = (p.entries.length : ℤ) ∧ p.total_krw = p.count * entry_amount_krw := by
  induction h with
  | refl => exact ⟨rfl, rfl⟩
  | tail hsteps st ih =>
      obtain ⟨ih1, ih2⟩ := ih
      cases st with
      | entrySlice ts d ss fs =>
          refine ⟨?_, ?_⟩
          · simp only [applyEntrySlice, applyEntryCounters, appendEntry, List.length_append,
              List.length_singleton]
            push_cast
            omega
          · simp only [applyEntrySlice, applyEntryCounters, appendEntry]
            rw [ih2]
            ring
      | exitSlice hq =>
          obtain ⟨e, rest, hE⟩ := List.exists_cons_of_ne_nil hq
          refine ⟨?_, ?_⟩
          · simp only [applyExitSlice, hE, List.tail_cons, List.length_cons]
            rw [hE, List.length_cons] at ih1
            push_cast at ih1 ⊢
            omega
          · simp only [applyExitSlice]
            rw [ih2]
            ring
      | exitRestore => exact ⟨ih1, ih2⟩
      | resetDone hq =>
          refine ⟨?_, ?_⟩
          · simp [resetPos, hq]
          · simp [resetPos, hq]
      | setStatus st2 => exact ⟨ih1, ih2⟩

/-- Witness for claim C5: the invariant after one successful entry slice. -/
theorem position_accounting_invariant_witness :
    (applyEntrySlice initPos (mkSliceRecord 0 cEntryData (1/10) (1/10))).count =
      ((applyEntrySlice initPos (mkSliceRecord 0 cEntryData (1/10) (1/10))).entries.length : ℤ) ∧
    (applyEntrySlice initPos (mkSliceRecord 0 cEntryData (1/10) (1/10))).total_krw =
      (applyEntrySlice initPos (mkSliceRecord 0 cEntryData (1/10) (1/10))).count *
        entry_amount_krw :=
  position_accounting_invariant _
    (Relation.ReflTransGen.single (PosStep.entrySlice initPos 0 cEntryData (1/10) (1/10)))

/-! ## Entry handling loop (`_handle_entry`, lines 283-335) -/

/-- External data consumed by one iteration of the entry loop: the
re-validation scan result of line 298 and the environment of the
`_execute_entry` call of line 304. -/
structure EntryIter where
  recheck : Option PremiumData
  env : EntryEnv
deriving DecidableEq, Repr

/-- The while loop of lines 294-325. The iteration list stands for the
successive external observations; an exhausted list models `self.running`
turning false. Breaks: re-validation failure (line 299) and execution
failure (line 321). On success the entries extension performed inside
`_execute_entry` and the counter updates of lines 306-314 are applied. -/
def handle_entry_loop (cfg : StrategyConfig) (symbol : String) (p : Position) :
    List EntryIter → Position
  | [] => p
  | it :: rest =>
      if p.total_krw < cfg.max_amount_per_coin then
        match it.recheck with
        | none => p
        | some cur =>
            if cfg.entry_threshold < cur.premium then p
            else
              let out := execute_entry symbol cur it.env
              let p1 := { p with entries := p.entries ++ out.appended.toList }
              if out.success then handle_entry_loop cfg symbol (applyEntryCounters p1) rest
              else p1
      else p

/-- `SplitEntryStrategy._handle_entry` (lines 283-335) when it completes
without raising: set status entering and record the venue (lines 286-288),
run the slice loop, then set status holding unconditionally (line 327). -/
def handle_entry (cfg : StrategyConfig) (symbol : String) (p : Position)
    (data : PremiumData) (iters : List EntryIter) : Position :=
  let p0 := { p with status := Status.entering
                     global_exchange := some data.global_exchange }
  let p1 := handle_entry_loop cfg symbol p0 iters
  { p1 with status := Status.holding }

/-- The position after an entry run on a fresh symbol whose first
re-validation comes back empty. -/
def c6Result : Position :=
  handle_entry defaultConfig "BTC" initPos cEntryData [{ recheck := none, env := cEnvBoth }]

theorem c6Result_eval :
    c6Result =
      { count := 0
        total_krw := 0
        global_exchange := some "okx"
        entries := []
        avg_entry_premium := 0
        status := Status.holding } := by
  norm_num [c6Result, handle_entry, handle_entry_loop, initPos, defaultConfig, cEntryData]

/-- Claim C6 counterexample: an entry run that stops before any fill ends
with zero slices but status holding, so in this quiescent state the
equivalence (status idle ⟺ entryCount 0) fails. -/
theorem entry_stops_at_zero_count_in_holding :
    c6Result.status = Status.holding ∧ c6Result.count = 0 ∧
    ¬ (c6Result.status = Status.idle ↔ c6Result.count = 0) := by
  rw [c6Result_eval]
  refine ⟨rfl, rfl, fun hiff => ?_⟩
  simp at hiff

/-- Claim C6, amended: an entry-handling task that completes without an
exception always leaves the position in status holding — also when the
loop stopped with zero recorded slices — so quiescent status idle is not
equivalent to a zero entry count. -/
theorem handle_entry_always_ends_holding (cfg : StrategyConfig) (symbol : String)
    (p : Position) (data : PremiumData) (iters : List EntryIter) :
    (handle_entry cfg symbol p data iters).status = Status.holding := rfl

/-- Witness for the amended claim C6 at a concrete run. -/
theorem handle_entry_always_ends_holding_witness :
    (handle_entry defaultConfig "BTC" initPos cEntryData []).status = Status.holding :=
  handle_entry_always_ends_holding defaultConfig "BTC" initPos cEntryData []

/-! ## Multi-symbol engine state (`self.positions` and the entry trigger of
`_check_and_execute_symbol`, lines 135-171) -/

/-- The `self.positions` defaultdict as an association list; a symbol that
was never touched maps to the default `initPos`. -/
abbrev EngineMap := List (String × Position)

/-- Lookup with the defaultdict semantics of lines 49-56. -/
def getPos : EngineMap → String → Position
  | [], _ => initPos
  | kv :: rest, s => if kv.1 = s then kv.2 else getPos rest s

/-- In-place update of one symbol's position. -/
def setPos : EngineMap → String → Position → EngineMap
  | [], s, p => [(s, p)]
  | kv :: rest, s, p => if kv.1 = s then (s, p) :: rest else kv :: setPos rest s p

/-- The idle-to-entering trigger: the guard of lines 146-149 composed with
the first writes of the spawned `_handle_entry` task (lines 286-288). The
guard reads only the triggered symbol's own position; no count over other
symbols is consulted anywhere. -/
def triggerEntry (cfg : StrategyConfig) (m : EngineMap) (s : String)
    (d : PremiumData) : EngineMap :=
  if entryGuard cfg d (getPos m s) then
    setPos m s
      { getPos m s with status := Status.entering
                        global_exchange := some d.global_exchange }
  else m

/-- Number of symbols whose status is entering, holding or exiting. -/
def activeSymbols (m : EngineMap) : ℕ :=
  (m.filter (fun kv => decide (kv.2.status ≠ Status.idle))).length

/-- Premium data satisfying the entry conditions (premium -2 ≤ -1,
funding 0). -/
def c4Data : PremiumData :=
  { symbol := "X"
    premium := -2
    korean_ask := 98000
    korean_bid := 97900
    korean_ask_usd := 98
    global_exchange := "okx"
    global_bid := 100
    global_ask := 101
    funding_rate := 0
    usdt_rate := 1000 }

/-- Eleven distinct symbols all satisfying the entry conditions. -/
def elevenSyms : List String :=
  ["S1", "S2", "S3", "S4", "S5", "S6", "S7", "S8", "S9", "S10", "S11"]

/-- The engine map after the entry trigger fires for each of the eleven
symbols in turn. -/
def c4Map : EngineMap :=
  elevenSyms.foldl (fun m s => triggerEntry defaultConfig m s c4Data) []

set_option maxRecDepth 8000 in
/-- Claim C4 counterexample: eleven symbols all pass the idle-to-entering
trigger and are active simultaneously, exceeding the configured maximum of
ten concurrent positions, because no transition ever consults a global
count. -/
theorem concurrency_cap_exceeded :
    activeSymbols c4Map = 11 ∧ RISK_max_positions < activeSymbols c4Map := by
  have h : activeSymbols c4Map = 11 := rfl
  exact ⟨h, by rw [h]; norm_num [RISK_max_positions]⟩

theorem getPos_setPos (m : EngineMap) (s : String) (p : Position) :
    getPos (setPos m s p) s = p := by
  induction m with
  | nil => simp [getPos, setPos]
  | cons kv rest ih =>
      by_cases h : kv.1 = s
      · simp [setPos, getPos, h]
      · simp [setPos, getPos, h, ih]

/-- Claim C4, amended: the idle-to-entering transition checks only the
symbol's own premium, funding, per-symbol notional and status; it fires
even when the number of active symbols already meets or exceeds the
configured maximum concurrent positions, which the strategy never reads. -/
theorem trigger_ignores_global_count (cfg : StrategyConfig) (m : EngineMap)
    (s : String) (d : PremiumData)
    (hg : entryGuard cfg d (getPos m s) = true)
    (_hcap : RISK_max_positions ≤ activeSymbols m) :
    (getPos (triggerEntry cfg m s d) s).status = Status.entering := by
  simp only [triggerEntry, hg, if_true, getPos_setPos]

/-- The engine map after ten symbols entered (at the configured cap). -/
def c4MapTen : EngineMap :=
  ["S1", "S2", "S3", "S4", "S5", "S6", "S7", "S8", "S9", "S10"].foldl
    (fun m s => triggerEntry defaultConfig m s c4Data) []

/-- Witness for the amended claim C4: with ten symbols already active, an
eleventh still passes the trigger. -/
theorem trigger_ignores_global_count_witness :
    (getPos (triggerEntry defaultConfig c4MapTen "S11" c4Data) "S11").status =
      Status.entering :=
  trigger_ignores_global_count defaultConfig c4MapTen "S11" c4Data rfl (by decide)

end KimchiPremium
